import Mathlib

/-!
Verification development for the dashboard core of `src/screen/dashboard.rs`
(halloy): the pane-layout state machine, its debounced persistence and its
history coordination.  Pure Rust functions are embedded as Lean functions;
the message-driven `update`/`handle_event` loop becomes explicit state
passing returning a list of dispatched effects; `Instant` timestamps become
natural numbers counted in seconds (`Duration::from_secs(3)` becomes `3`).
-/

namespace Halloy

/-- Axis of a split, `pane_grid::Axis` / `data::pane::Axis`. -/
inductive Axis
  | horizontal
  | vertical
deriving DecidableEq, Repr

/-- Buffer descriptor `data::Buffer`: the resource identifier a non-empty
buffer carries (channel, server or query), used for history tracking and
dedup-on-open. -/
inductive BufferKind
  | channel (server : String) (chan : String)
  | server (server : String)
  | query (server : String) (nick : String)
deriving DecidableEq, Repr

/-- Modelled from the spec: `crate::buffer::Buffer` (module not under
`src/`): a tagged union `{Empty, Channel, Server, Query}`, each non-empty
variant carrying the resource identifier needed by this core; rendering
state carried by the Rust variants is irrelevant here and omitted. -/
inductive Buffer
  | empty
  | of (kind : BufferKind)
deriving DecidableEq, Repr

/-- Modelled from the spec: `Buffer::data()` returns the buffer descriptor
of a non-empty buffer and nothing for `Empty`. -/
def Buffer.data : Buffer → Option BufferKind
  | .empty => none
  | .of k => some k

/-- Modelled from the spec: `Buffer::from(kind)` builds the buffer showing
`kind`. -/
def Buffer.fromKind (k : BufferKind) : Buffer := .of k

/-- Modelled from the spec: per-pane display settings
(`crate::buffer::Settings`, module not under `src/`), independent of buffer
kind; the only mutation this core performs is toggling user-list
visibility. -/
structure Settings where
  usersVisible : Bool
deriving DecidableEq, Repr

/-- Modelled from the spec: `buffer::Settings::default()`. -/
def Settings.default : Settings := ⟨true⟩

/-- Modelled from the spec: toggling of user-list visibility
(`settings.channel.users.toggle_visibility()`). -/
def Settings.toggleUsers (s : Settings) : Settings := ⟨!s.usersVisible⟩

/-- Per-leaf pane state `pane::Pane` (buffer shown plus settings). -/
structure Pane where
  buffer : Buffer
  settings : Settings
deriving DecidableEq, Repr

/-- Modelled from the spec: `Pane::new(buffer, settings)`. -/
def Pane.new (b : Buffer) (s : Settings) : Pane := ⟨b, s⟩

/-- Modelled from the spec: `Pane::resource()`, the trackable resource of
the pane's buffer (none for an empty buffer). -/
def Pane.resource (p : Pane) : Option BufferKind := p.buffer.data

/-- Modelled from the spec: the layout node of the iced
`pane_grid::State` collaborator — a proper binary tree of splits whose
leaves hold pane ids (`pane_grid::Node`). -/
inductive Node
  | split (axis : Axis) (ratio : Rat) (a b : Node)
  | leaf (id : Nat)
deriving DecidableEq, Repr

/-- Number of leaves of a layout node. -/
def Node.leafCount : Node → Nat
  | .split _ _ a b => a.leafCount + b.leafCount
  | .leaf _ => 1

/-- First (leftmost) leaf id of a layout node. -/
def Node.firstLeaf : Node → Nat
  | .split _ _ a _ => a.firstLeaf
  | .leaf i => i

/-- Whether `target` occurs as a leaf of the node. -/
def Node.containsLeaf : Node → Nat → Bool
  | .split _ _ a b, t => a.containsLeaf t || b.containsLeaf t
  | .leaf i, t => i = t

/-- Replace the leaf `target` with the node `repl` (first occurrence). -/
def Node.replaceLeaf : Node → Nat → Node → Node
  | .split ax r a b, t, repl =>
      if a.containsLeaf t then .split ax r (a.replaceLeaf t repl) b
      else if b.containsLeaf t then .split ax r a (b.replaceLeaf t repl)
      else .split ax r a b
  | .leaf i, t, repl => if i = t then repl else .leaf i

/-- Modelled from the spec: tree-level close — removes the leaf `target`,
promoting its sibling subtree in place of the parent split, and returns the
new layout together with the sibling pane id handed back for focus
reassignment; on the sole leaf of the tree close is a no-op (`none`): the
tree is never empty. -/
def Node.closeLeaf : Node → Nat → Option (Node × Nat)
  | .leaf _, _ => none
  | .split ax r a b, t =>
      if a = .leaf t then some (b, b.firstLeaf)
      else if b = .leaf t then some (a, a.firstLeaf)
      else
        match a.closeLeaf t with
        | some (a', sib) => some (.split ax r a' b, sib)
        | none =>
          match b.closeLeaf t with
          | some (b', sib) => some (.split ax r a b', sib)
          | none => none

/-- Swap the positions of the two leaves `x` and `y` in the layout. -/
def Node.swapLeaves : Node → Nat → Nat → Node
  | .split ax r a b, x, y => .split ax r (a.swapLeaves x y) (b.swapLeaves x y)
  | .leaf i, x, y => .leaf (if i = x then y else if i = y then x else i)

/-- Modelled from the spec: the iced `pane_grid::State<Pane>` collaborator —
a layout tree, a map from pane id to pane state (kept as an
insertion-ordered association list), the transient maximized pane, and the
id counter for freshly created panes. -/
structure PGState where
  layout : Node
  panes : List (Nat × Pane)
  maximized : Option Nat
  nextId : Nat
deriving DecidableEq, Repr

namespace PGState

/-- Modelled from the spec: `pane_grid::State::new(pane)` — a grid with a
single pane. -/
def new (p : Pane) : PGState := ⟨.leaf 0, [(0, p)], none, 1⟩

/-- Number of panes, `pane_grid::State::len()`. -/
def len (s : PGState) : Nat := s.panes.length

/-- Pane lookup, `pane_grid::State::get`. -/
def get (s : PGState) (id : Nat) : Option Pane := s.panes.lookup id

/-- Replace the pane stored under `id` (functional form of `get_mut` /
`entry(..).and_modify`). -/
def setPane (s : PGState) (id : Nat) (p : Pane) : PGState :=
  { s with panes := s.panes.map fun x => if x.1 = id then (id, p) else x }

/-- Modelled from the spec: `pane_grid::State::split(axis, &target, pane)` —
replaces the leaf at `target` with a split of the given axis and default
ratio whose first child is the old leaf and whose second child is a fresh
leaf holding `pane`; returns the fresh pane id, or `none` when `target`
does not exist. -/
def split (s : PGState) (axis : Axis) (target : Nat) (p : Pane) :
    Option (Nat × PGState) :=
  if s.layout.containsLeaf target then
    some (s.nextId,
      { layout := s.layout.replaceLeaf target
          (.split axis (1 / 2) (.leaf target) (.leaf s.nextId)),
        panes := s.panes ++ [(s.nextId, p)],
        maximized := s.maximized,
        nextId := s.nextId + 1 })
  else none

/-- Modelled from the spec: `pane_grid::State::close(&target)` — removes
the leaf and its pane state, promoting the sibling subtree; returns the
removed pane together with the sibling pane id, or `none` when `target` is
the sole leaf (close is a no-op at the tree level) or absent. -/
def close (s : PGState) (target : Nat) : Option (Pane × Nat × PGState) :=
  match s.layout.closeLeaf target with
  | some (layout', sib) =>
      match s.panes.lookup target with
      | some p =>
          some (p, sib,
            { layout := layout',
              panes := s.panes.filter fun x => x.1 ≠ target,
              maximized := s.maximized,
              nextId := s.nextId })
      | none => none
  | none => none

/-- Modelled from the spec: `pane_grid::State::swap(&a, &b)` — exchanges
the two leaves' positions in the layout. -/
def swap (s : PGState) (a b : Nat) : PGState :=
  { s with layout := s.layout.swapLeaves a b }

/-- Modelled from the spec: `pane_grid::State::maximize(&pane)` — records
the (at most one) maximized leaf; transient view state, the tree is
untouched. -/
def maximize (s : PGState) (id : Nat) : PGState := { s with maximized := some id }

/-- Modelled from the spec: `pane_grid::State::restore()` — clears the
maximized leaf. -/
def restore (s : PGState) : PGState := { s with maximized := none }

end PGState

/-- Persisted snapshot tree `data::Pane`: splits mirror the layout, leaves
carry only the buffer descriptor and settings, and leaves with no real
buffer are collapsed to `Empty`. -/
inductive DataPane
  | split (axis : Axis) (ratio : Rat) (a b : DataPane)
  | buffer (kind : BufferKind) (settings : Settings)
  | empty
deriving DecidableEq, Repr

/-- Persisted snapshot `data::Dashboard`. -/
structure DataDashboard where
  pane : DataPane
deriving DecidableEq, Repr

/-- Modelled from the spec: `data::Pane::from(pane)` (the `data` crate is
not under `src/`) — a leaf becomes `{buffer_descriptor, settings}`, and is
collapsed to `Empty` when no real buffer is assigned. -/
def Pane.toData (p : Pane) : DataPane :=
  match p.buffer.data with
  | some k => .buffer k p.settings
  | none => .empty

/-- Dashboard state: the pane grid, the focus tracker and the dirty marker
(`last_changed`).  The side menu holds no state this core reads, and the
history manager is reached only through dispatched effects, so neither is
carried here. -/
structure Dashboard where
  panes : PGState
  focus : Option Nat
  lastChanged : Option Nat
deriving DecidableEq, Repr

/-- SAVE_AFTER, the debounce window in seconds. -/
def SAVE_AFTER : Nat := 3

/-- Helper of `impl From<&Dashboard> for data::Dashboard`: `from_layout`
walks the layout, converting splits structurally and looking each leaf's
pane up in the grid (`data::Pane::Empty` when absent). -/
def fromLayout (panes : List (Nat × Pane)) : Node → DataPane
  | .split ax r a b =>
      .split ax r (fromLayout panes a) (fromLayout panes b)
  | .leaf id =>
      match panes.lookup id with
      | some p => p.toData
      | none => .empty

/-- Snapshot conversion `impl From<&Dashboard> for data::Dashboard`. -/
def Dashboard.toData (d : Dashboard) : DataDashboard :=
  ⟨fromLayout d.panes.panes d.panes.layout⟩

/-- Helper of `impl From<data::Dashboard> for Dashboard`: the
`configuration` + `State::with_configuration` pipeline.  Builds the layout
node and the pane map from a persisted tree, threading the fresh-id
counter; a `Buffer` leaf becomes a pane showing that buffer with its
persisted settings, an `Empty` leaf becomes a pane with an empty buffer and
default settings (`State::with_configuration` itself is modelled from the
spec: it assigns fresh ids leaf by leaf). -/
def buildConfig : DataPane → Nat → Node × List (Nat × Pane) × Nat
  | .split ax r a b, n =>
      let (na, pa, n1) := buildConfig a n
      let (nb, pb, n2) := buildConfig b n1
      (.split ax r na nb, pa ++ pb, n2)
  | .buffer k s, n => (.leaf n, [(n, Pane.new (Buffer.fromKind k) s)], n + 1)
  | .empty, n => (.leaf n, [(n, Pane.new Buffer.empty Settings.default)], n + 1)

/-- Restore conversion `impl From<data::Dashboard> for Dashboard`: rebuilds
the grid from the snapshot with no focus and a clear dirty marker. -/
def Dashboard.ofData (dd : DataDashboard) : Dashboard :=
  let (layout, panes, next) := buildConfig dd.pane 0
  { panes := ⟨layout, panes, none, next⟩,
    focus := none,
    lastChanged := none }

/-- Effects dispatched by the update loop (the `Command<Message>` values),
kept only as descriptions of the scheduled work. -/
inductive Effect
  | bufferFocus (id : Nat)
  | historyTask
  | trackResources (resources : List BufferKind)
  | saveDashboard (snapshot : DataDashboard)
  | clipboardWrite (contents : String)
  | windowClose
deriving DecidableEq, Repr

/-- Dashboard::track — collects the resources of the visible panes and
dispatches history tracking for them. -/
def Dashboard.track (d : Dashboard) : List Effect :=
  [.trackResources (d.panes.panes.filterMap fun x => x.2.resource)]

/-- Dashboard::focus_pane — no-op when already focused; otherwise sets
focus and dispatches the newly focused pane's buffer-focus side effect
(when that pane exists in the grid). -/
def Dashboard.focusPane (d : Dashboard) (p : Nat) : Dashboard × List Effect :=
  if d.focus = some p then (d, [])
  else
    ({ d with focus := some p },
     if (d.panes.panes.lookup p).isSome then [.bufferFocus p] else [])

/-- Dashboard::empty — a single empty pane, no focus, clean; tracking runs
on load. -/
def Dashboard.emptyDash (newBuffer : Settings) : Dashboard × List Effect :=
  let d : Dashboard :=
    { panes := PGState.new (Pane.new Buffer.empty newBuffer),
      focus := none,
      lastChanged := none }
  (d, d.track)

/-- Dashboard::restore — rebuild from the snapshot; tracking runs on
load. -/
def Dashboard.restoreDash (dd : DataDashboard) : Dashboard × List Effect :=
  let d := Dashboard.ofData dd
  (d, d.track)

/-- Navigational intents emitted by the side menu
(`side_menu::Event`). -/
inductive SMEvent
  | openKind (kind : BufferKind)
  | replace (kind : BufferKind) (pane : Nat)
  | close (pane : Nat)
  | swap (a b : Nat)
deriving DecidableEq, Repr

/-- Messages handled by `Dashboard::update` that touch the state this core
models (buffer-internal, selected-text and raw side-menu messages are
routed to collaborators and omitted; `side_menu.update` is represented by
feeding its resulting event directly). -/
inductive Msg
  | paneClicked (id : Nat)
  | paneResized (split : Nat) (ratio : Rat)
  | closePane
  | splitPane (axis : Axis)
  | toggleShowUserList
  | maximizePane
  | sideMenu (event : SMEvent)
  | tick (now : Nat)
  | dashboardSaved (ok : Bool)
deriving DecidableEq, Repr

/-- Modelled from the spec: `pane_grid::State::resize(&split, ratio)` —
updates the matching split's ratio in place.  Split ids are not tracked by
this model (no claim addresses them), so the resize is represented as a
layout-preserving ratio update selected by the caller-supplied id being
ignored; only the dirty-marking behaviour of the handler matters here. -/
def PGState.resize (s : PGState) (_split : Nat) (_ratio : Rat) : PGState := s

/-- Dashboard::update.  `now` is the `Instant::now()` observed by the
handler (in seconds); the returned list holds the dispatched effects. -/
def Dashboard.update (d : Dashboard) (now : Nat) (newBuffer : Settings) :
    Msg → Dashboard × List Effect
  | .paneClicked id => d.focusPane id
  | .paneResized sp r =>
      ({ d with panes := d.panes.resize sp r, lastChanged := some now }, [])
  | .closePane =>
      match d.focus with
      | none => (d, [])
      | some pane =>
        let d1 := { d with lastChanged := some now }
        match d1.panes.close pane with
        | some (_, sibling, pg) => Dashboard.focusPane { d1 with panes := pg } sibling
        | none =>
          match d1.panes.get pane with
          | some p =>
              ({ d1 with panes := d1.panes.setPane pane { p with buffer := .empty } }, [])
          | none => (d1, [])
  | .splitPane axis =>
      match d.focus with
      | none => (d, [])
      | some pane =>
        let result := d.panes.split axis pane (Pane.new Buffer.empty newBuffer)
        match result with
        | some (newPane, pg) =>
            Dashboard.focusPane { d with panes := pg, lastChanged := some now } newPane
        | none => ({ d with lastChanged := some now }, [])
  | .toggleShowUserList =>
      match d.focus with
      | none => (d, [])
      | some pane =>
        match d.panes.get pane with
        | some p =>
            ({ d with panes := d.panes.setPane pane { p with settings := p.settings.toggleUsers },
                      lastChanged := some now }, [])
        | none => (d, [])
  | .maximizePane =>
      if d.panes.maximized.isSome then
        ({ d with panes := d.panes.restore }, [])
      else
        match d.focus with
        | some pane => ({ d with panes := d.panes.maximize pane }, [])
        | none => (d, [])
  | .sideMenu ev =>
      match ev with
      | .openKind kind =>
        match d.panes.panes.find? (fun x => x.2.buffer.data = some kind) with
        | some (id, _) =>
            Dashboard.focusPane { d with focus := some id } id
        | none =>
          match if d.panes.len = 1
                then d.panes.panes.find? (fun x => x.2.buffer = .empty)
                else none with
          | some (id, _) =>
              Dashboard.focusPane
                { d with panes := d.panes.setPane id (Pane.new (Buffer.fromKind kind) newBuffer),
                         lastChanged := some now } id
          | none =>
            match d.focus <|> (d.panes.panes.map Prod.fst).getLast? with
            | none => (d, [])
            | some target =>
              match d.panes.split .horizontal target
                      (Pane.new (Buffer.fromKind kind) newBuffer) with
              | some (newPane, pg) =>
                  Dashboard.focusPane { d with panes := pg, lastChanged := some now } newPane
              | none => ({ d with lastChanged := some now }, [])
      | .replace kind pane =>
        match d.panes.get pane with
        | some p =>
            Dashboard.focusPane
              { d with panes := d.panes.setPane pane { p with buffer := Buffer.fromKind kind },
                       lastChanged := some now } pane
        | none => (d, [])
      | .close pane =>
        let pg := match d.panes.close pane with
                  | some (_, _, pg) => pg
                  | none => d.panes
        ({ d with panes := pg,
                  lastChanged := some now,
                  focus := if d.focus = some pane then none else d.focus }, [])
      | .swap a b =>
          Dashboard.focusPane { d with panes := d.panes.swap a b, lastChanged := some now } a
  | .tick t =>
      match d.lastChanged with
      | some since =>
          if SAVE_AFTER ≤ t - since then
            ({ d with lastChanged := none },
             [.saveDashboard d.toData, .historyTask])
          else (d, [.historyTask])
      | none => (d, [.historyTask])
  | .dashboardSaved _ => (d, [])

/-- Steps of the asynchronous shutdown task built by
`Dashboard::handle_event` on `CloseRequested`, in execution order. -/
inductive Step
  | awaitHistoryClose
  | save (snapshot : DataDashboard)
  | emitClose
deriving DecidableEq, Repr

/-- Whether a step is the snapshot save. -/
def Step.isSave : Step → Bool
  | .save _ => true
  | _ => false

/-- Dashboard::handle_event on `CloseRequested`: the handler captures the
dirty marker and a snapshot, then schedules one task that awaits the
history manager's close, saves the snapshot when the marker was set, and
finally yields `Message::Close` (which the update loop turns into the
window-close command).  The dashboard state itself is untouched. -/
def Dashboard.closeRequested (d : Dashboard) : List Step :=
  [.awaitHistoryClose]
    ++ (if d.lastChanged.isSome then [Step.save d.toData] else [])
    ++ [.emitClose]

/-- Dashboard::handle_event on `Escape`: clears focus. -/
def Dashboard.escape (d : Dashboard) : Dashboard := { d with focus := none }

/-- Whether an effect is the asynchronous dashboard save. -/
def Effect.isSave : Effect → Bool
  | .saveDashboard _ => true
  | _ => false

/-- Whether an effect is a history-tracking dispatch. -/
def Effect.isTrack : Effect → Bool
  | .trackResources _ => true
  | _ => false

/-- Events seen by the persistence controller, abstracted from the update
loop: a mutation at time `t` (any handler that assigns
`last_changed = Some(Instant::now())`) or the periodic tick at time `t`. -/
inductive PCEvent
  | mutation (t : Nat)
  | tick (t : Nat)
deriving DecidableEq, Repr

/-- One persistence-controller step, as performed by the mutation handlers
and the `Message::Tick` branch: a mutation resets the dirty timestamp to
its own time; a tick fires a save exactly when dirty and at least
`SAVE_AFTER` seconds have elapsed, clearing the marker. -/
def pcStep : Option Nat → PCEvent → Option Nat × Bool
  | _, .mutation t => (some t, false)
  | some since, .tick t =>
      if SAVE_AFTER ≤ t - since then (none, true) else (some since, false)
  | none, .tick _ => (none, false)

/-- Final dirty marker after a sequence of persistence-controller
events. -/
def pcRun : Option Nat → List PCEvent → Option Nat
  | lc, [] => lc
  | lc, e :: es => pcRun (pcStep lc e).1 es

/-- Times at which saves are dispatched along a sequence of
persistence-controller events. -/
def pcSaves : Option Nat → List PCEvent → List Nat
  | _, [] => []
  | lc, e :: es =>
      (if (pcStep lc e).2 then [match e with | .mutation t => t | .tick t => t] else [])
        ++ pcSaves (pcStep lc e).1 es

/-- Time of the last mutation in a sequence of persistence-controller
events. -/
def lastMutTime : List PCEvent → Option Nat
  | [] => none
  | .mutation t :: es => some ((lastMutTime es).getD t)
  | .tick _ :: es => lastMutTime es

/-- Messages whose handlers may set the dirty marker (resize, drop, close,
split, settings toggle, and every side-menu navigation). -/
def Msg.isMutation : Msg → Bool
  | .paneResized _ _ => true
  | .closePane => true
  | .splitPane _ => true
  | .toggleShowUserList => true
  | .sideMenu _ => true
  | _ => false

/-- Run a list of timestamped messages through `Dashboard::update`,
collecting every dispatched effect. -/
def runMsgs (cfg : Settings) : Dashboard → List (Nat × Msg) → Dashboard × List Effect
  | d, [] => (d, [])
  | d, (now, m) :: ms =>
      let r := d.update now cfg m
      let rest := runMsgs cfg r.1 ms
      (rest.1, r.2 ++ rest.2)

/-- Structural shape of a live dashboard tree: split axes and ratios, and
at each leaf the displayed buffer and settings — pane ids erased.  Used to
state pane-id-independent structural equality. -/
inductive Shape
  | split (axis : Axis) (ratio : Rat) (a b : Shape)
  | leaf (buffer : Buffer) (settings : Settings)
deriving DecidableEq, Repr

/-- Shape of a layout node under a pane map (a leaf whose id is unmapped
reads as an empty pane, mirroring `from_layout`'s `unwrap_or(Empty)`
default). -/
def shapeOfAux (panes : List (Nat × Pane)) : Node → Shape
  | .split ax r a b => .split ax r (shapeOfAux panes a) (shapeOfAux panes b)
  | .leaf id =>
      match panes.lookup id with
      | some p => .leaf p.buffer p.settings
      | none => .leaf .empty Settings.default

/-- Shape of a dashboard's pane tree. -/
def Dashboard.shape (d : Dashboard) : Shape := shapeOfAux d.panes.panes d.panes.layout

/-- Normalisation that forgets exactly what persistence forgets: the
settings of a leaf holding an empty buffer are reset to the defaults. -/
def Shape.norm : Shape → Shape
  | .split ax r a b => .split ax r a.norm b.norm
  | .leaf .empty _ => .leaf .empty Settings.default
  | .leaf (.of k) s => .leaf (.of k) s

/-- Whether every empty-buffer leaf of a shape carries the default
settings. -/
def Shape.emptyDefaults : Shape → Bool
  | .split _ _ a b => a.emptyDefaults && b.emptyDefaults
  | .leaf .empty s => s = Settings.default
  | .leaf (.of _) _ => true

/-- Shape of a persisted snapshot tree. -/
def DataPane.shape : DataPane → Shape
  | .split ax r a b => .split ax r a.shape b.shape
  | .buffer k s => .leaf (.of k) s
  | .empty => .leaf .empty Settings.default

/-- Tree-level operations for the never-empty invariant: the split/close
alphabet of §4.1. -/
inductive TreeOp
  | splitOp (axis : Axis) (target : Nat) (p : Pane)
  | closeOp (target : Nat)
deriving DecidableEq, Repr

/-- Apply one tree operation, keeping the state unchanged when the
operation reports failure (`None`), as the callers do. -/
def applyOp (s : PGState) : TreeOp → PGState
  | .splitOp ax t p =>
      match s.split ax t p with
      | some (_, s') => s'
      | none => s
  | .closeOp t =>
      match s.close t with
      | some (_, _, s') => s'
      | none => s

/-- Apply a sequence of tree operations. -/
def applyOps : PGState → List TreeOp → PGState := List.foldl applyOp

/-- Concrete two-pane dashboard (panes 0 and 1 under one horizontal split),
pane 0 focused: exercise state for the focus-after-close claims. -/
def twoPaneDash : Dashboard :=
  { panes :=
      ⟨.split .horizontal (1 / 2) (.leaf 0) (.leaf 1),
       [(0, Pane.new Buffer.empty ⟨true⟩), (1, Pane.new Buffer.empty ⟨true⟩)],
       none, 2⟩,
    focus := some 0,
    lastChanged := none }

/-- Concrete single-pane dashboard whose sole (empty-buffer) pane carries
non-default settings (user list hidden): exercise state for the snapshot
round-trip claims. -/
def hiddenUsersDash : Dashboard :=
  { panes := ⟨.leaf 0, [(0, Pane.new Buffer.empty ⟨false⟩)], none, 1⟩,
    focus := none,
    lastChanged := none }

/-- Concrete single-pane dashboard displaying a channel buffer: exercise
state for the idempotent-open claim. -/
def channelDash : Dashboard :=
  { panes := ⟨.leaf 0, [(0, Pane.new (Buffer.of (.channel "s" "#a")) ⟨true⟩)], none, 1⟩,
    focus := none,
    lastChanged := none }

/-- Concrete single-pane dashboard with its sole pane focused: exercise
state for the sole-leaf close claims. -/
def soleDash : Dashboard :=
  { panes := ⟨.leaf 0, [(0, Pane.new Buffer.empty ⟨true⟩)], none, 1⟩,
    focus := some 0,
    lastChanged := none }

/-- Concrete dashboard with a pending dirty marker (a mutation happened at
t = 4 s): exercise state for the shutdown and failed-save claims. -/
def dirtyDash : Dashboard :=
  { soleDash with focus := none, lastChanged := some 4 }

lemma focusPane_lastChanged (d : Dashboard) (p : Nat) :
    (d.focusPane p).1.lastChanged = d.lastChanged := by
  unfold Dashboard.focusPane
  split <;> rfl

lemma focusPane_panes (d : Dashboard) (p : Nat) :
    (d.focusPane p).1.panes = d.panes := by
  unfold Dashboard.focusPane
  split <;> rfl

lemma focusPane_focus (d : Dashboard) (p : Nat) :
    (d.focusPane p).1.focus = some p := by
  unfold Dashboard.focusPane
  split
  · next h => exact h
  · rfl

lemma focusPane_effects (d : Dashboard) (p : Nat) :
    (d.focusPane p).2 = []
      ∨ (d.focusPane p).2 = [Effect.bufferFocus p] := by
  unfold Dashboard.focusPane
  split
  · exact Or.inl rfl
  · split
    · exact Or.inr rfl
    · exact Or.inl rfl

lemma focusPane_no_save (d : Dashboard) (p : Nat) :
    (d.focusPane p).2.any Effect.isSave = false := by
  rcases focusPane_effects d p with h | h <;> simp [h, Effect.isSave]

lemma focusPane_no_track (d : Dashboard) (p : Nat) :
    (d.focusPane p).2.any Effect.isTrack = false := by
  rcases focusPane_effects d p with h | h <;> simp [h, Effect.isTrack]

lemma pcStep_mutation (lc : Option Nat) (t : Nat) :
    pcStep lc (.mutation t) = (some t, false) := by
  cases lc <;> rfl

lemma pcSaves_append (xs : List PCEvent) :
    ∀ lc ys, pcSaves lc (xs ++ ys) = pcSaves lc xs ++ pcSaves (pcRun lc xs) ys := by
  induction xs with
  | nil => intro lc ys; simp [pcSaves, pcRun]
  | cons e xs ih =>
      intro lc ys
      simp [pcSaves, pcRun, ih, List.append_assoc]

lemma pcRun_lastMut (evs : List PCEvent) :
    ∀ lc s, pcRun lc evs = some s →
      lastMutTime evs = some s ∨ (lastMutTime evs = none ∧ lc = some s) := by
  induction evs with
  | nil =>
      intro lc s h
      exact Or.inr ⟨rfl, h⟩
  | cons e es ih =>
      intro lc s h
      simp only [pcRun] at h
      cases e with
      | mutation t =>
          rw [pcStep_mutation] at h
          rcases ih (some t) s h with h' | ⟨h', ht⟩
          · exact Or.inl (by simp [lastMutTime, h'])
          · exact Or.inl (by simp [lastMutTime, h', Option.some_inj.mp ht])
      | tick u =>
          rcases ih (pcStep lc (.tick u)).1 s h with h' | ⟨h', ht⟩
          · exact Or.inl (by simpa [lastMutTime] using h')
          · refine Or.inr ⟨by simpa [lastMutTime] using h', ?_⟩
            cases lc with
            | none => simp [pcStep] at ht
            | some since =>
                by_cases hle : SAVE_AFTER ≤ u - since
                · simp [pcStep, hle] at ht
                · simpa [pcStep, hle] using ht

lemma update_no_track (d : Dashboard) (now : Nat) (cfg : Settings) (m : Msg) :
    (d.update now cfg m).2.any Effect.isTrack = false := by
  cases m <;> simp only [Dashboard.update] <;>
    (repeat' split) <;>
      first
        | rfl
        | exact focusPane_no_track _ _

/-- C1.  Debounced persistence: a mutation resets the dirty timestamp to
its own time and dispatches no save; a tick dispatches a save exactly when
the marker is set and at least `SAVE_AFTER` = 3 seconds have elapsed since
the last mutation, clearing the marker (no earlier tick saves, one save
fires); saves along a trace decompose per step; whenever the marker is set
it holds the time of the last mutation of the trace; the `Message::Tick`
handler of `Dashboard::update` agrees with this controller and the resize
handler is a mutation in its sense; on the spec's scenario (mutations at
0 s and 2 s, ticks each second) exactly one save fires, at t = 5 s. -/
theorem debounced_persistence_c1 :
    (∀ (lc : Option Nat) (t : Nat), pcStep lc (.mutation t) = (some t, false)) ∧
    (∀ since t : Nat, SAVE_AFTER ≤ t - since →
      pcStep (some since) (.tick t) = (none, true)) ∧
    (∀ since t : Nat, t - since < SAVE_AFTER →
      pcStep (some since) (.tick t) = (some since, false)) ∧
    (∀ t : Nat, pcStep none (.tick t) = (none, false)) ∧
    (∀ (lc : Option Nat) (xs ys : List PCEvent),
      pcSaves lc (xs ++ ys) = pcSaves lc xs ++ pcSaves (pcRun lc xs) ys) ∧
    (∀ (evs : List PCEvent) (s : Nat),
      pcRun none evs = some s → lastMutTime evs = some s) ∧
    (∀ (d : Dashboard) (cfg : Settings) (t : Nat),
      ((d.update 0 cfg (.tick t)).1.lastChanged,
       (d.update 0 cfg (.tick t)).2.any Effect.isSave)
        = pcStep d.lastChanged (.tick t)) ∧
    (∀ (d : Dashboard) (now : Nat) (cfg : Settings) (sp : Nat) (r : Rat),
      (d.update now cfg (.paneResized sp r)).1.lastChanged = some now) ∧
    pcSaves none
      [.mutation 0, .tick 1, .mutation 2, .tick 3, .tick 4, .tick 5, .tick 6]
      = [5] := by
  refine ⟨pcStep_mutation, ?_, ?_, fun _ => rfl, fun lc xs ys => pcSaves_append xs lc ys,
    ?_, ?_, fun _ _ _ _ _ => rfl, by decide⟩
  · intro since t h
    simp [pcStep, h]
  · intro since t h
    simp [pcStep, Nat.not_le.mpr h]
  · intro evs s h
    rcases pcRun_lastMut evs none s h with h' | ⟨_, ht⟩
    · exact h'
    · cases ht
  · intro d cfg t
    cases hl : d.lastChanged with
    | none => simp [Dashboard.update, hl, pcStep, Effect.isSave]
    | some since =>
        by_cases hle : SAVE_AFTER ≤ t - since <;>
          simp [Dashboard.update, hl, pcStep, hle, Effect.isSave]

/-- Closed instance of C1: at t = 5 s, three seconds after the last
mutation at t = 2 s, the tick fires the save and clears the marker. -/
theorem debounced_persistence_c1_witness :
    SAVE_AFTER ≤ 5 - 2 ∧ pcStep (some 2) (.tick 5) = (none, true) :=
  ⟨by decide, debounced_persistence_c1.2.1 2 5 (by decide)⟩

/-- C2.  Shutdown sequence: for every state, the task scheduled on
`CloseRequested` starts by awaiting the history manager's close, contains
the snapshot save exactly once if and only if the dirty marker was set at
the time of the request (strictly between the history await and the final
step), and ends by emitting the window-close message. -/
theorem shutdown_close_requested_c2 : ∀ d : Dashboard,
    (d.closeRequested).head? = some .awaitHistoryClose ∧
    (d.closeRequested).getLast? = some .emitClose ∧
    (d.closeRequested).countP Step.isSave
      = (if d.lastChanged.isSome then 1 else 0) ∧
    (d.lastChanged.isSome = true → Step.save d.toData ∈ d.closeRequested) ∧
    (∀ (i : Nat) (st : Step),
      (d.closeRequested).get? i = some st → st.isSave = true →
        i = 1 ∧ (d.closeRequested).length = 3 ∧ d.lastChanged.isSome = true) := by
  intro d
  by_cases h : d.lastChanged.isSome
  · have hl : d.closeRequested = [.awaitHistoryClose, .save d.toData, .emitClose] := by
      simp [Dashboard.closeRequested, h]
    refine ⟨by rw [hl]; rfl, by rw [hl]; rfl,
      by rw [hl, h]; rfl,
      fun _ => by rw [hl]; simp, ?_⟩
    intro i st hget hsave
    rw [hl] at hget
    match i with
    | 0 =>
        simp only [List.get?] at hget
        cases hget
        simp [Step.isSave] at hsave
    | 1 => exact ⟨rfl, by rw [hl]; rfl, h⟩
    | 2 =>
        simp only [List.get?] at hget
        cases hget
        simp [Step.isSave] at hsave
    | (n + 3) => simp [List.get?] at hget
  · have hl : d.closeRequested = [.awaitHistoryClose, .emitClose] := by
      simp [Dashboard.closeRequested, h]
    refine ⟨by rw [hl]; rfl, by rw [hl]; rfl,
      by rw [hl]; simp [h, Step.isSave],
      fun hh => absurd hh (by simpa using h), ?_⟩
    intro i st hget hsave
    rw [hl] at hget
    match i with
    | 0 =>
        simp only [List.get?] at hget
        cases hget
        simp [Step.isSave] at hsave
    | 1 =>
        simp only [List.get?] at hget
        cases hget
        simp [Step.isSave] at hsave
    | (n + 2) => simp [List.get?] at hget

/-- Closed instance of C2: on a dirty dashboard the scheduled shutdown
task contains the snapshot save. -/
theorem shutdown_close_requested_c2_witness :
    dirtyDash.lastChanged.isSome = true ∧
    Step.save dirtyDash.toData ∈ dirtyDash.closeRequested :=
  ⟨rfl, (shutdown_close_requested_c2 dirtyDash).2.2.2.1 rfl⟩

/-- C3 is false on the code: opening a fresh channel through the side menu
is a navigational mutation (it even sets the dirty marker), yet no
history-tracking effect is dispatched — `Dashboard::update` never calls
`Dashboard::track`. -/
theorem router_track_c3_counterexample :
    ((Dashboard.emptyDash ⟨true⟩).1.update 7 ⟨true⟩
        (.sideMenu (.openKind (.channel "libera" "#halloy")))).2.any Effect.isTrack
      = false ∧
    ((Dashboard.emptyDash ⟨true⟩).1.update 7 ⟨true⟩
        (.sideMenu (.openKind (.channel "libera" "#halloy")))).1.lastChanged
      = some 7 ∧
    (Dashboard.emptyDash ⟨true⟩).2.any Effect.isTrack = true :=
  ⟨rfl, rfl, rfl⟩

/-- C3 (amended): resource tracking runs on workspace load only —
`Dashboard::empty` and `Dashboard::restore` dispatch the tracking batch
over the visible panes' resources — while no message handled by
`Dashboard::update`, in particular no navigational side-menu mutation
(Open, Replace, Close, Swap), re-runs it. -/
theorem router_track_c3_amended :
    (∀ (d : Dashboard) (now : Nat) (cfg : Settings) (m : Msg),
      (d.update now cfg m).2.any Effect.isTrack = false) ∧
    (∀ cfg : Settings, (Dashboard.emptyDash cfg).2 = (Dashboard.emptyDash cfg).1.track) ∧
    (∀ dd : DataDashboard,
      (Dashboard.restoreDash dd).2 = (Dashboard.restoreDash dd).1.track) ∧
    (∀ d : Dashboard, d.track.any Effect.isTrack = true) :=
  ⟨update_no_track, fun _ => rfl, fun _ => rfl, fun _ => rfl⟩

lemma update_preserves_clean (d : Dashboard) (now : Nat) (cfg : Settings) (m : Msg)
    (hm : m.isMutation = false) (h : d.lastChanged = none) :
    (d.update now cfg m).1.lastChanged = none
      ∧ (d.update now cfg m).2.any Effect.isSave = false := by
  cases m with
  | paneClicked id =>
      refine ⟨?_, focusPane_no_save _ _⟩
      show (d.focusPane id).1.lastChanged = none
      rw [focusPane_lastChanged]
      exact h
  | paneResized sp r => simp [Msg.isMutation] at hm
  | closePane => simp [Msg.isMutation] at hm
  | splitPane ax => simp [Msg.isMutation] at hm
  | toggleShowUserList => simp [Msg.isMutation] at hm
  | sideMenu e => simp [Msg.isMutation] at hm
  | maximizePane =>
      constructor
      · simp only [Dashboard.update]
        repeat' split
        all_goals exact h
      · simp only [Dashboard.update]
        repeat' split
        all_goals rfl
  | tick t =>
      constructor
      · simp only [Dashboard.update, h]
      · simp only [Dashboard.update, h]
        rfl
  | dashboardSaved ok => exact ⟨h, rfl⟩

lemma runMsgs_clean (cfg : Settings) (ms : List (Nat × Msg)) :
    ∀ d : Dashboard, d.lastChanged = none →
      (∀ x ∈ ms, (x.2).isMutation = false) →
      (runMsgs cfg d ms).1.lastChanged = none
        ∧ (runMsgs cfg d ms).2.any Effect.isSave = false := by
  induction ms with
  | nil => intro d h _; exact ⟨h, rfl⟩
  | cons x ms ih =>
      intro d h hall
      have hstep := update_preserves_clean d x.1 cfg x.2
        (hall x (List.mem_cons_self x ms)) h
      have hrest := ih (d.update x.1 cfg x.2).1 hstep.1
        (fun y hy => hall y (List.mem_cons_of_mem x hy))
      refine ⟨hrest.1, ?_⟩
      simp only [runMsgs, List.any_append, hstep.2, hrest.2, Bool.or_self]

/-- C4.  Failed-save semantics: the dirty marker is cleared at the moment a
tick dispatches the save; the `DashboardSaved` completion handler (both
success and error) only logs — it returns the state unchanged with no
effects — so after a dispatched save fails, no further save is dispatched
by any sequence of non-mutating messages (ticks included) until a new
mutation occurs. -/
theorem failed_save_c4 : ∀ (d : Dashboard) (cfg : Settings) (t since : Nat),
    d.lastChanged = some since → SAVE_AFTER ≤ t - since →
    ((d.update 0 cfg (.tick t)).2.any Effect.isSave = true) ∧
    ((d.update 0 cfg (.tick t)).1.lastChanged = none) ∧
    (∀ (d' : Dashboard) (now : Nat) (ok : Bool),
      d'.update now cfg (.dashboardSaved ok) = (d', [])) ∧
    (∀ ms : List (Nat × Msg), (∀ x ∈ ms, (x.2).isMutation = false) →
      (runMsgs cfg (d.update 0 cfg (.tick t)).1 ms).2.any Effect.isSave = false) := by
  intro d cfg t since h hle
  have h1 : (d.update 0 cfg (.tick t)).1.lastChanged = none := by
    simp [Dashboard.update, h, hle]
  refine ⟨?_, h1, fun _ _ _ => rfl, ?_⟩
  · simp [Dashboard.update, h, hle, Effect.isSave]
  · intro ms hms
    exact (runMsgs_clean cfg ms _ h1 hms).2

/-- Closed instance of C4: from a mutation at t = 4 s, the tick at t = 7 s
dispatches the save and clears the marker. -/
theorem failed_save_c4_witness :
    dirtyDash.lastChanged = some 4 ∧ SAVE_AFTER ≤ 7 - 4 ∧
    ((dirtyDash.update 0 ⟨true⟩ (.tick 7)).2.any Effect.isSave = true) ∧
    ((dirtyDash.update 0 ⟨true⟩ (.tick 7)).1.lastChanged = none) := by
  have h := failed_save_c4 dirtyDash ⟨true⟩ 7 4 rfl (by decide)
  exact ⟨rfl, by decide, h.1, h.2.1⟩

lemma node_leafCount_pos : ∀ n : Node, 1 ≤ n.leafCount := by
  intro n
  induction n with
  | split ax r a b iha ihb => simp only [Node.leafCount]; omega
  | leaf i => exact Nat.le_refl 1

lemma lookup_setPane (ps : List (Nat × Pane)) (id : Nat) (p : Pane) :
    (ps.map fun x => if x.1 = id then (id, p) else x).lookup id
      = (ps.lookup id).map fun _ => p := by
  induction ps with
  | nil => rfl
  | cons hd tl ih =>
      rcases hd with ⟨k, v⟩
      by_cases h : k = id
      · subst h
        simp only [List.map_cons]
        simp [List.lookup]
      · simp only [List.map_cons]
        rw [if_neg (show ¬(k, v).1 = id from h)]
        have hne : (id == k) = false := by
          simp [Ne.symm h]
        simp [List.lookup, hne, ih]

/-- C5.  Never-empty tree: every layout node has at least one leaf (the
tree type itself rules out emptiness), so any sequence of split and close
operations leaves at least one leaf; close of the sole leaf is a no-op at
the tree level; and the `ClosePane` handler on a focused sole pane keeps
the layout and the pane count, merely resetting that pane's buffer to the
empty buffer. -/
theorem never_empty_c5 :
    (∀ n : Node, 1 ≤ n.leafCount) ∧
    (∀ (s : PGState) (ops : List TreeOp), 1 ≤ (applyOps s ops).layout.leafCount) ∧
    (∀ (s : PGState) (t : Nat), s.layout = .leaf t → s.close t = none) ∧
    (∀ (d : Dashboard) (pane0 now : Nat) (cfg : Settings) (p : Pane),
      d.focus = some pane0 → d.panes.layout = .leaf pane0 →
      d.panes.get pane0 = some p →
        ((d.update now cfg .closePane).1.panes.layout = d.panes.layout ∧
         (d.update now cfg .closePane).1.panes.get pane0
           = some { p with buffer := .empty } ∧
         (d.update now cfg .closePane).1.panes.panes.length
           = d.panes.panes.length)) := by
  refine ⟨node_leafCount_pos, fun s ops => node_leafCount_pos _, ?_, ?_⟩
  · intro s t h
    simp [PGState.close, h, Node.closeLeaf]
  · intro d pane0 now cfg p hf hl hg
    have hclose : ({ d with lastChanged := some now } : Dashboard).panes.close pane0
        = none := by
      simp [PGState.close, hl, Node.closeLeaf]
    have hget : ({ d with lastChanged := some now } : Dashboard).panes.get pane0
        = some p := hg
    simp only [Dashboard.update, hf, hclose, hget]
    refine ⟨rfl, ?_, ?_⟩
    · show (d.panes.setPane pane0 _).get pane0 = _
      simp only [PGState.setPane, PGState.get, lookup_setPane]
      rw [show d.panes.panes.lookup pane0 = some p from hg]
      rfl
    · exact List.length_map _ _

/-- Closed instance of C5: closing the focused sole pane of a single-pane
dashboard keeps the layout and pane count and resets the buffer. -/
theorem never_empty_c5_witness :
    soleDash.focus = some 0 ∧ soleDash.panes.layout = .leaf 0 ∧
    soleDash.panes.get 0 = some (Pane.new Buffer.empty ⟨true⟩) ∧
    ((soleDash.update 9 ⟨true⟩ .closePane).1.panes.layout = soleDash.panes.layout ∧
     (soleDash.update 9 ⟨true⟩ .closePane).1.panes.get 0
       = some { Pane.new Buffer.empty ⟨true⟩ with buffer := .empty } ∧
     (soleDash.update 9 ⟨true⟩ .closePane).1.panes.panes.length
       = soleDash.panes.panes.length) :=
  ⟨rfl, rfl, rfl,
   never_empty_c5.2.2.2 soleDash 0 9 ⟨true⟩ (Pane.new Buffer.empty ⟨true⟩) rfl rfl rfl⟩

/-- C6 is false on the code: in a two-pane dashboard with the first pane
focused, the side-menu Close of that pane leaves a sibling (the tree close
returns pane 1), yet focus is cleared to `none` instead of moving to the
sibling. -/
theorem focus_after_close_c6_counterexample :
    (twoPaneDash.panes.close 0).map (fun r => r.2.1) = some 1 ∧
    twoPaneDash.focus = some 0 ∧
    (twoPaneDash.update 5 ⟨true⟩ (.sideMenu (.close 0))).1.focus = none :=
  ⟨rfl, rfl, rfl⟩

/-- C6 (amended): after the `ClosePane` event on the focused pane, focus
equals the sibling returned by the tree close, and is left untouched (still
the closed pane, not `none`) when the close was a no-op; after the
side-menu Close event, focus is cleared to `none` whenever it pointed at
the closed pane — even when a sibling exists — and left unchanged
otherwise. -/
theorem focus_after_close_c6_amended :
    (∀ (d : Dashboard) (pane0 now : Nat) (cfg : Settings) (p : Pane)
        (sib : Nat) (pg : PGState),
      d.focus = some pane0 → d.panes.close pane0 = some (p, sib, pg) →
        (d.update now cfg .closePane).1.focus = some sib) ∧
    (∀ (d : Dashboard) (pane0 now : Nat) (cfg : Settings),
      d.focus = some pane0 → d.panes.close pane0 = none →
        (d.update now cfg .closePane).1.focus = some pane0) ∧
    (∀ (d : Dashboard) (pane0 now : Nat) (cfg : Settings),
      (d.update now cfg (.sideMenu (.close pane0))).1.focus
        = if d.focus = some pane0 then none else d.focus) := by
  refine ⟨?_, ?_, ?_⟩
  · intro d pane0 now cfg p sib pg hf hclose
    have hclose' : ({ d with lastChanged := some now } : Dashboard).panes.close pane0
        = some (p, sib, pg) := hclose
    simp only [Dashboard.update, hf, hclose']
    exact focusPane_focus _ _
  · intro d pane0 now cfg hf hclose
    have hclose' : ({ d with lastChanged := some now } : Dashboard).panes.close pane0
        = none := hclose
    simp only [Dashboard.update, hf, hclose']
    cases hget : ({ d with lastChanged := some now } : Dashboard).panes.get pane0 with
    | some p => simp only [hget]
    | none => simp only [hget]
  · intro d pane0 now cfg
    rfl

/-- Closed instance of C6 (amended): `ClosePane` moves focus to the sibling
in the two-pane dashboard and leaves it untouched on the sole pane. -/
theorem focus_after_close_c6_witness :
    twoPaneDash.focus = some 0 ∧
    (twoPaneDash.update 5 ⟨true⟩ .closePane).1.focus = some 1 ∧
    soleDash.focus = some 0 ∧ soleDash.panes.close 0 = none ∧
    (soleDash.update 5 ⟨true⟩ .closePane).1.focus = some 0 :=
  ⟨rfl,
   focus_after_close_c6_amended.1 twoPaneDash 0 5 ⟨true⟩
     (Pane.new Buffer.empty ⟨true⟩) 1
     ⟨.leaf 1, [(1, Pane.new Buffer.empty ⟨true⟩)], none, 2⟩ rfl rfl,
   rfl, rfl,
   focus_after_close_c6_amended.2.1 soleDash 0 5 ⟨true⟩ rfl rfl⟩

/-- C7.  Idempotent open: when some pane already displays buffer kind `k`,
the side-menu Open(`k`) performs no structural change — the grid (layout,
pane map, maximized flag, id counter) is untouched, the dirty marker is not
set — and only moves focus to the first pane displaying `k`; no effect is
dispatched (focus was assigned before `focus_pane` ran, so even the
buffer-focus side effect is skipped). -/
theorem idempotent_open_c7 : ∀ (d : Dashboard) (now : Nat) (cfg : Settings)
    (k : BufferKind) (id : Nat) (p : Pane),
    d.panes.panes.find? (fun x => x.2.buffer.data = some k) = some (id, p) →
      ((d.update now cfg (.sideMenu (.openKind k))).1.panes = d.panes ∧
       (d.update now cfg (.sideMenu (.openKind k))).1.lastChanged = d.lastChanged ∧
       (d.update now cfg (.sideMenu (.openKind k))).1.focus = some id ∧
       (d.update now cfg (.sideMenu (.openKind k))).2 = []) := by
  intro d now cfg k id p hfind
  have hfp : Dashboard.focusPane { d with focus := some id } id
      = ({ d with focus := some id }, []) := by
    simp [Dashboard.focusPane]
  simp [Dashboard.update, hfind, hfp]

/-- Closed instance of C7: opening the channel already shown by the sole
pane of `channelDash` changes nothing but focus. -/
theorem idempotent_open_c7_witness :
    channelDash.panes.panes.find?
        (fun x => x.2.buffer.data = some (.channel "s" "#a"))
      = some (0, Pane.new (Buffer.of (.channel "s" "#a")) ⟨true⟩) ∧
    ((channelDash.update 3 ⟨true⟩
        (.sideMenu (.openKind (.channel "s" "#a")))).1.panes = channelDash.panes ∧
     (channelDash.update 3 ⟨true⟩
        (.sideMenu (.openKind (.channel "s" "#a")))).1.lastChanged
       = channelDash.lastChanged ∧
     (channelDash.update 3 ⟨true⟩
        (.sideMenu (.openKind (.channel "s" "#a")))).1.focus = some 0 ∧
     (channelDash.update 3 ⟨true⟩
        (.sideMenu (.openKind (.channel "s" "#a")))).2 = []) :=
  ⟨rfl, idempotent_open_c7 channelDash 3 ⟨true⟩ (.channel "s" "#a") 0
    (Pane.new (Buffer.of (.channel "s" "#a")) ⟨true⟩) rfl⟩

lemma fromLayout_shape (panes : List (Nat × Pane)) : ∀ n : Node,
    (fromLayout panes n).shape = (shapeOfAux panes n).norm := by
  intro n
  induction n with
  | split ax r a b iha ihb =>
      simp [fromLayout, shapeOfAux, DataPane.shape, Shape.norm, iha, ihb]
  | leaf id =>
      cases hl : panes.lookup id with
      | none => simp [fromLayout, shapeOfAux, hl, DataPane.shape, Shape.norm]
      | some p =>
          cases hb : p.buffer with
          | empty =>
              simp [fromLayout, shapeOfAux, hl, Pane.toData, hb, Buffer.data,
                DataPane.shape, Shape.norm]
          | of k =>
              simp [fromLayout, shapeOfAux, hl, Pane.toData, hb, Buffer.data,
                DataPane.shape, Shape.norm]

lemma toData_shape (d : Dashboard) : d.toData.pane.shape = d.shape.norm :=
  fromLayout_shape d.panes.panes d.panes.layout

lemma lookup_append_keys_lt (L : List (Nat × Pane)) (n : Nat)
    (rest : List (Nat × Pane)) (h : ∀ x ∈ L, x.1 < n) (m : Nat) (hm : n ≤ m) :
    (L ++ rest).lookup m = rest.lookup m := by
  induction L with
  | nil => rfl
  | cons hd tl ih =>
      have hlt : hd.1 < n := h hd (List.mem_cons_self hd tl)
      have hne : (m == hd.1) = false := by
        simp only [beq_eq_false_iff_ne, ne_eq]
        omega
      rcases hd with ⟨k, v⟩
      simp only [List.cons_append, List.lookup, hne]
      exact ih fun x hx => h x (List.mem_cons_of_mem _ hx)

lemma buildConfig_spec (t : DataPane) : ∀ n : Nat,
    n ≤ (buildConfig t n).2.2 ∧
      (∀ x ∈ (buildConfig t n).2.1, n ≤ x.1 ∧ x.1 < (buildConfig t n).2.2) := by
  induction t with
  | split ax r a b iha ihb =>
      intro n
      rcases hA : buildConfig a n with ⟨na, pa, n1⟩
      rcases hB : buildConfig b n1 with ⟨nb, pb, n2⟩
      have ha := iha n
      have hb := ihb n1
      rw [hA] at ha
      rw [hB] at hb
      simp only [buildConfig, hA, hB]
      constructor
      · exact le_trans ha.1 hb.1
      · intro x hx
        rcases List.mem_append.mp hx with hx | hx
        · have := ha.2 x hx
          exact ⟨this.1, lt_of_lt_of_le this.2 hb.1⟩
        · have := hb.2 x hx
          exact ⟨le_trans ha.1 this.1, this.2⟩
  | buffer k s =>
      intro n
      refine ⟨Nat.le_succ n, ?_⟩
      intro x hx
      simp only [buildConfig, List.mem_singleton] at hx
      subst hx
      exact ⟨le_refl n, Nat.lt_succ_self n⟩
  | empty =>
      intro n
      refine ⟨Nat.le_succ n, ?_⟩
      intro x hx
      simp only [buildConfig, List.mem_singleton] at hx
      subst hx
      exact ⟨le_refl n, Nat.lt_succ_self n⟩

lemma buildConfig_shape (t : DataPane) : ∀ (n : Nat) (L R : List (Nat × Pane)),
    (∀ x ∈ L, x.1 < n) →
    shapeOfAux (L ++ (buildConfig t n).2.1 ++ R) (buildConfig t n).1 = t.shape := by
  induction t with
  | split ax r a b iha ihb =>
      intro n L R hL
      rcases hA : buildConfig a n with ⟨na, pa, n1⟩
      rcases hB : buildConfig b n1 with ⟨nb, pb, n2⟩
      have ha := buildConfig_spec a n
      rw [hA] at ha
      simp only [buildConfig, hA, hB]
      have h1 : shapeOfAux (L ++ (pa ++ pb) ++ R) na = a.shape := by
        have := iha n L (pb ++ R) hL
        rw [hA] at this
        simpa [List.append_assoc] using this
      have h2 : shapeOfAux (L ++ (pa ++ pb) ++ R) nb = b.shape := by
        have hL' : ∀ x ∈ L ++ pa, x.1 < n1 := by
          intro x hx
          rcases List.mem_append.mp hx with hx | hx
          · exact lt_of_lt_of_le (hL x hx) ha.1
          · exact (ha.2 x hx).2
        have := ihb n1 (L ++ pa) R hL'
        rw [hB] at this
        simpa [List.append_assoc] using this
      simp only [shapeOfAux, DataPane.shape, h1, h2]
  | buffer k s =>
      intro n L R hL
      simp only [buildConfig, shapeOfAux]
      rw [List.append_assoc,
        lookup_append_keys_lt L n ([(n, Pane.new (Buffer.fromKind k) s)] ++ R) hL n
          (le_refl n)]
      simp [List.lookup, DataPane.shape, Pane.new, Buffer.fromKind]
  | empty =>
      intro n L R hL
      simp only [buildConfig, shapeOfAux]
      rw [List.append_assoc,
        lookup_append_keys_lt L n ([(n, Pane.new Buffer.empty Settings.default)] ++ R)
          hL n (le_refl n)]
      simp [List.lookup, DataPane.shape, Pane.new]

lemma ofData_shape (dd : DataDashboard) :
    (Dashboard.ofData dd).shape = dd.pane.shape := by
  rcases hB : buildConfig dd.pane 0 with ⟨layout, panes, next⟩
  have h := buildConfig_shape dd.pane 0 [] [] (by intro x hx; cases hx)
  rw [hB] at h
  simp only [List.nil_append, List.append_nil] at h
  simp only [Dashboard.ofData, Dashboard.shape, hB]
  exact h

lemma norm_eq_of_emptyDefaults : ∀ s : Shape, s.emptyDefaults = true → s.norm = s := by
  intro s
  induction s with
  | split ax r a b iha ihb =>
      intro h
      simp only [Shape.emptyDefaults, Bool.and_eq_true] at h
      simp [Shape.norm, iha h.1, ihb h.2]
  | leaf b st =>
      intro h
      cases b with
      | empty =>
          simp only [Shape.emptyDefaults, decide_eq_true_eq] at h
          simp [Shape.norm, h]
      | of k => rfl

/-- C8 is false on the code: a sole empty pane whose settings differ from
the defaults (user list hidden) is collapsed to `data::Pane::Empty` by the
snapshot conversion, so restoring yields a pane with default settings — the
round-tripped tree is not structurally equal (its leaf settings differ). -/
theorem snapshot_roundtrip_c8_counterexample :
    (Dashboard.ofData hiddenUsersDash.toData).shape ≠ hiddenUsersDash.shape ∧
    hiddenUsersDash.toData = ⟨.empty⟩ := by
  exact ⟨by decide, rfl⟩

/-- C8 (amended): converting a dashboard to the persisted snapshot and
restoring yields a tree whose shape (split axes, ratios, buffer
descriptors, settings — pane ids erased) equals the original's up to
resetting the settings of empty-buffer leaves to the defaults (those
settings are not persisted); in particular when every empty leaf already
carries the default settings the round trip preserves the shape
exactly. -/
theorem snapshot_roundtrip_c8_amended : ∀ d : Dashboard,
    (Dashboard.ofData d.toData).shape = d.shape.norm ∧
    (d.shape.emptyDefaults = true →
      (Dashboard.ofData d.toData).shape = d.shape) := by
  intro d
  have h1 : (Dashboard.ofData d.toData).shape = d.shape.norm :=
    (ofData_shape d.toData).trans (toData_shape d)
  exact ⟨h1, fun hd => h1.trans (norm_eq_of_emptyDefaults _ hd)⟩

/-- Closed instance of C8 (amended): on a dashboard whose empty leaf holds
default settings, the round trip preserves the shape exactly. -/
theorem snapshot_roundtrip_c8_witness :
    (Dashboard.emptyDash Settings.default).1.shape.emptyDefaults = true ∧
    (Dashboard.ofData (Dashboard.emptyDash Settings.default).1.toData).shape
      = (Dashboard.emptyDash Settings.default).1.shape :=
  ⟨by decide, (snapshot_roundtrip_c8_amended _).2 (by decide)⟩

/-- C9.  Maximize is transient view state: the `MaximizePane` handler
(maximize the focused pane, or restore when some pane is maximized) leaves
the layout, every pane's buffer and settings, the focus, and the dirty
marker unchanged, dispatches nothing, never reflects the maximized flag in
the persisted snapshot, and tracks at most one maximized leaf (restore
clears it, maximize records the focused pane). -/
theorem maximize_transient_c9 : ∀ (d : Dashboard) (now : Nat) (cfg : Settings),
    ((d.update now cfg .maximizePane).1.panes.layout = d.panes.layout ∧
     (d.update now cfg .maximizePane).1.panes.panes = d.panes.panes ∧
     (d.update now cfg .maximizePane).1.lastChanged = d.lastChanged ∧
     (d.update now cfg .maximizePane).1.focus = d.focus ∧
     (d.update now cfg .maximizePane).1.toData = d.toData ∧
     (d.update now cfg .maximizePane).2 = [] ∧
     (d.update now cfg .maximizePane).1.panes.maximized
       = (if d.panes.maximized.isSome then none else d.focus)) := by
  intro d now cfg
  by_cases hm : d.panes.maximized.isSome
  · simp [Dashboard.update, hm, PGState.restore, Dashboard.toData]
  · cases hf : d.focus with
    | some pane =>
        simp [Dashboard.update, hm, hf, PGState.maximize, Dashboard.toData]
    | none =>
        simp [Dashboard.update, hm, hf, Dashboard.toData,
          Option.not_isSome_iff_eq_none.mp hm]

/-- C10.  Freshly loaded workspaces are clean: both `Dashboard::restore`
and `Dashboard::empty` produce a state with no focused pane and a clear
dirty marker, and from that state no sequence of non-mutating messages
(ticks included) ever dispatches a save. -/
theorem fresh_load_clean_c10 : ∀ (dd : DataDashboard) (cfg : Settings) (now t : Nat),
    (Dashboard.restoreDash dd).1.focus = none ∧
    (Dashboard.restoreDash dd).1.lastChanged = none ∧
    ((Dashboard.restoreDash dd).1.update now cfg (.tick t)).2.any Effect.isSave
      = false ∧
    (Dashboard.emptyDash cfg).1.focus = none ∧
    (Dashboard.emptyDash cfg).1.lastChanged = none ∧
    ((Dashboard.emptyDash cfg).1.update now cfg (.tick t)).2.any Effect.isSave
      = false ∧
    (∀ ms : List (Nat × Msg), (∀ x ∈ ms, (x.2).isMutation = false) →
      (runMsgs cfg (Dashboard.restoreDash dd).1 ms).2.any Effect.isSave = false) := by
  intro dd cfg now t
  have hre : (Dashboard.restoreDash dd).1.lastChanged = none := by
    rcases hB : buildConfig dd.pane 0 with ⟨layout, panes, next⟩
    simp [Dashboard.restoreDash, Dashboard.ofData, hB]
  have hrf : (Dashboard.restoreDash dd).1.focus = none := by
    rcases hB : buildConfig dd.pane 0 with ⟨layout, panes, next⟩
    simp [Dashboard.restoreDash, Dashboard.ofData, hB]
  refine ⟨hrf, hre, ?_, rfl, rfl, ?_, ?_⟩
  · exact (update_preserves_clean _ now cfg (.tick t) rfl hre).2
  · exact (update_preserves_clean _ now cfg (.tick t) rfl rfl).2
  · intro ms hms
    exact (runMsgs_clean cfg ms _ hre hms).2

/-- Closed instance of C10: restoring the one-leaf empty snapshot and
running two clean ticks dispatches no save. -/
theorem fresh_load_clean_c10_witness :
    ((1, Msg.tick 5) :: [(2, Msg.tick 9)]).all (fun x => !(x.2).isMutation) = true ∧
    (runMsgs ⟨true⟩ (Dashboard.restoreDash ⟨.empty⟩).1
      [(1, .tick 5), (2, .tick 9)]).2.any Effect.isSave = false := by
  refine ⟨by decide, ?_⟩
  refine (fresh_load_clean_c10 ⟨.empty⟩ ⟨true⟩ 0 0).2.2.2.2.2.2
    [(1, .tick 5), (2, .tick 9)] ?_
  intro x hx
  rcases List.mem_cons.mp hx with rfl | hx2
  · rfl
  · rcases List.mem_cons.mp hx2 with rfl | hx3
    · rfl
    · cases hx3

end Halloy
